import Mathlib

/-!
Shallow embedding of `src/backend/src/utils/seed.ts`.

The file models the startup bootstrap of the InsForge backend: the admin
credential check (`ensureFirstAdmin`), the cloud-gated AI-config seeder
(`seedDefaultAIConfigs`) and the orchestrator (`seedBackend`).

External collaborators (auth service, database manager, AI-config store,
environment classifier, logger) are modelled by explicit inputs:

* `Env` carries the environment variables (each an `Option String`, `none`
  meaning unset) together with the boolean reported by `isCloudEnvironment`.
* `Behavior` fixes the outcome of every external call: whether the two
  `getInstance` calls throw, the result of `initializeApiKey` and
  `getUserTableCount` (an `Except`, `.error e` modelling a thrown exception
  with message `e`), whether `findAll` throws, and whether the k-th `create`
  call (counted globally) throws.
* `SeedState` carries the contents of the AI-config store and the observable
  trace of events: every log line emitted and every call issued to the
  AI-config store or to the auth/database services.

A function returns `SeedState × Option String`; the second component is
`some e` when the TypeScript code would let an exception with message `e`
escape that function, `none` when it returns normally.
-/

/-- One AI model configuration record, as persisted by the store operation
`aiConfigService.create(modality, provider, model, systemPrompt?)`. -/
structure AIModelConfig where
  modality : String
  provider : String
  model : String
  systemPrompt : Option String
deriving DecidableEq, Repr

/-- A log line: level, message, and structured metadata (key-value pairs). -/
inductive LogEvent where
  | info (msg : String) (meta : List (String × String))
  | warn (msg : String)
  | error (msg : String) (meta : List (String × String))
deriving DecidableEq, Repr

/-- An observable event of the startup sequence: a log line or a call to an
external service. `callCreate` records the arguments of the create call. -/
inductive Event where
  | log (e : LogEvent)
  | callInitApiKey
  | callGetUserTableCount
  | callFindAll
  | callCreate (modality provider model : String) (systemPrompt : Option String)
deriving DecidableEq, Repr

/-- State threaded through the routine: the AI-config store contents and the
trace of events observed so far. -/
structure SeedState where
  store : List AIModelConfig
  trace : List Event
deriving DecidableEq, Repr

/-- Environment variables (`none` = unset) and the deployment classification
returned by `isCloudEnvironment()`. -/
structure Env where
  ADMIN_EMAIL : Option String
  ADMIN_PASSWORD : Option String
  POSTGRES_HOST : Option String
  POSTGRES_PORT : Option String
  POSTGRES_DB : Option String
  isCloud : Bool

/-- Behavior of the external services: which calls throw and what the
successful calls return. `createThrows k` governs the k-th create call,
counting every create call in the trace so far. -/
structure Behavior where
  getInstanceAuthThrows : Option String
  getInstanceDbThrows : Option String
  initializeApiKey : Except String String
  getUserTableCount : Except String Nat
  findAllThrows : Option String
  createThrows : Nat → Option String

/-- JavaScript truthiness of a possibly-undefined string: `undefined` and the
empty string are falsy, every other string is truthy. -/
def jsTruthy : Option String → Bool
  | none => false
  | some s => !s.isEmpty

/-- JavaScript string interpolation of a possibly-undefined string. -/
def optToJsString : Option String → String
  | none => "undefined"
  | some s => s

/-- The JavaScript idiom `process.env.X || fallback`: the fallback is used
when the variable is unset or set to the empty string. -/
def orDefault (o : Option String) (d : String) : String :=
  match o with
  | none => d
  | some s => if s.isEmpty then d else s

/-- Append an info log line to the trace (`logger.info(msg, meta)`). -/
def logInfo (msg : String) (meta : List (String × String)) (s : SeedState) : SeedState :=
  { s with trace := s.trace ++ [Event.log (LogEvent.info msg meta)] }

/-- Number of create calls recorded in a trace. -/
def createCallCount (t : List Event) : Nat :=
  (t.filter fun e => match e with
    | Event.callCreate _ _ _ _ => true
    | _ => false).length

/-- Model of `aiConfigService.create(modality, provider, model, systemPrompt?)`:
records the call, then either throws (per `Behavior.createThrows`, indexed by
the number of create calls issued so far) or appends the new record. -/
def doCreate (b : Behavior) (modality provider model : String)
    (systemPrompt : Option String) (s : SeedState) : SeedState × Option String :=
  let n := createCallCount s.trace
  let s1 : SeedState :=
    { s with trace := s.trace ++ [Event.callCreate modality provider model systemPrompt] }
  match b.createThrows n with
  | some e => (s1, some e)
  | none =>
    ({ s1 with store := s1.store ++ [⟨modality, provider, model, systemPrompt⟩] }, none)

/-- Model of `ensureFirstAdmin(adminEmail, adminPassword)` from seed.ts: logs an info
line with the email when both credentials are truthy, a warning otherwise.
It never throws (the model returns a plain state, with no error component). -/
def ensureFirstAdmin (adminEmail adminPassword : Option String) (s : SeedState) : SeedState :=
  if jsTruthy adminEmail && jsTruthy adminPassword then
    { s with trace := s.trace ++
        [Event.log (LogEvent.info ("✅ Admin configured: " ++ optToJsString adminEmail) [])] }
  else
    { s with trace := s.trace ++
        [Event.log (LogEvent.warn
          "⚠️ Admin credentials not configured - check ADMIN_EMAIL and ADMIN_PASSWORD")] }

/-- Model of `seedDefaultAIConfigs()` from seed.ts. The cloud classification is passed
in as `isCloud`; the AI-config store is `s.store` (`findAll` returns it). -/
def seedDefaultAIConfigs (isCloud : Bool) (b : Behavior) (s : SeedState) :
    SeedState × Option String :=
  if !isCloud then
    (s, none)
  else
    let s1 : SeedState := { s with trace := s.trace ++ [Event.callFindAll] }
    match b.findAllThrows with
    | some e => (s1, some e)
    | none =>
      let existingConfigs := s1.store
      if existingConfigs.length > 0 then
        (s1, none)
      else
        match doCreate b "text" "openrouter" "anthropic/claude-3.5-haiku"
            (some "You are a helpful assistant.") s1 with
        | (s2, some e) => (s2, some e)
        | (s2, none) =>
          match doCreate b "image" "openrouter" "google/gemini-2.5-flash-image-preview"
              none s2 with
          | (s3, some e) => (s3, some e)
          | (s3, none) =>
            ({ s3 with trace := s3.trace ++
                [Event.log (LogEvent.info
                  "✅ Default AI models configured (cloud environment)" [])] }, none)

/-- The final summary message logged by `seedBackend`. -/
def setupCompleteMessage : String :=
  "Setup complete:\n      - Save this API key for your apps!\n      - Dashboard: http://localhost:7131\n      - API: http://localhost:7130/api\n    "

/-- Body of the `try` block of `seedBackend` (lines 66-96 of seed.ts), after
the admin credentials have been resolved. Returns the state reached and
`some e` when one of the awaited calls threw an exception. -/
def tryBody (env : Env) (b : Behavior) (adminEmail adminPassword : String)
    (s : SeedState) : SeedState × Option String :=
  let s1 := logInfo "\n🚀 Insforge Backend Starting..." [] s
  let s2 := ensureFirstAdmin (some adminEmail) (some adminPassword) s1
  let s3 : SeedState := { s2 with trace := s2.trace ++ [Event.callInitApiKey] }
  match b.initializeApiKey with
  | Except.error e => (s3, some e)
  | Except.ok apiKey =>
    let s4 : SeedState := { s3 with trace := s3.trace ++ [Event.callGetUserTableCount] }
    match b.getUserTableCount with
    | Except.error e => (s4, some e)
    | Except.ok tableCount =>
      let s5 := logInfo "✅ Database connected to PostgreSQL"
        [("host", orDefault env.POSTGRES_HOST "localhost"),
         ("port", orDefault env.POSTGRES_PORT "5432"),
         ("database", orDefault env.POSTGRES_DB "insforge")] s4
      let s6 := if tableCount > 0 then
          logInfo ("✅ Found " ++ toString tableCount ++ " user tables") [] s5
        else s5
      match seedDefaultAIConfigs env.isCloud b s6 with
      | (s7, some e) => (s7, some e)
      | (s7, none) =>
        let s8 := logInfo ("API key generated: " ++ apiKey) [] s7
        let s9 := logInfo setupCompleteMessage [] s8
        (s9, none)

/-- Model of `seedBackend()` from seed.ts. The two `getInstance` calls happen before
the `try` block, so their exceptions propagate; any exception thrown inside
the `try` block is caught, logged as an error, and suppressed. -/
def seedBackend (env : Env) (b : Behavior) (s : SeedState) : SeedState × Option String :=
  match b.getInstanceAuthThrows with
  | some e => (s, some e)
  | none =>
    match b.getInstanceDbThrows with
    | some e => (s, some e)
    | none =>
      let adminEmail := orDefault env.ADMIN_EMAIL "admin@example.com"
      let adminPassword := orDefault env.ADMIN_PASSWORD "change-this-password"
      match tryBody env b adminEmail adminPassword s with
      | (s1, none) => (s1, none)
      | (s1, some e) =>
        ({ s1 with trace := s1.trace ++
            [Event.log (LogEvent.error "Error during setup" [("error", e)])] }, none)

/-- The text record seeded first. -/
def textConfig : AIModelConfig :=
  ⟨"text", "openrouter", "anthropic/claude-3.5-haiku", some "You are a helpful assistant."⟩

/-- The image record seeded second. -/
def imageConfig : AIModelConfig :=
  ⟨"image", "openrouter", "google/gemini-2.5-flash-image-preview", none⟩

/-- Whether an event is an error log line. -/
def isErrorEvent : Event → Bool
  | Event.log (LogEvent.error _ _) => true
  | _ => false

/-- Whether an event is a create call. -/
def isCreateEvent : Event → Bool
  | Event.callCreate _ _ _ _ => true
  | _ => false

/-- Whether an event is a log line (of any level). -/
def isLogEvent : Event → Bool
  | Event.log _ => true
  | _ => false


/-- The first log line of `seedBackend`. -/
def startingLogEvent : Event :=
  Event.log (LogEvent.info "\n🚀 Insforge Backend Starting..." [])

/-- The connectivity summary log line, with its metadata from configuration. -/
def dbConnectedEvent (env : Env) : Event :=
  Event.log (LogEvent.info "✅ Database connected to PostgreSQL"
    [("host", orDefault env.POSTGRES_HOST "localhost"),
     ("port", orDefault env.POSTGRES_PORT "5432"),
     ("database", orDefault env.POSTGRES_DB "insforge")])

/-- The user-table-count log line. -/
def foundTablesEvent (n : Nat) : Event :=
  Event.log (LogEvent.info ("✅ Found " ++ toString n ++ " user tables") [])

/-- The API-key log line. -/
def apiKeyLogEvent (k : String) : Event :=
  Event.log (LogEvent.info ("API key generated: " ++ k) [])

/-- The setup-complete log line. -/
def setupCompleteEvent : Event :=
  Event.log (LogEvent.info setupCompleteMessage [])

/-- The seeder confirmation log line. -/
def seededLogEvent : Event :=
  Event.log (LogEvent.info "✅ Default AI models configured (cloud environment)" [])

/-- The error log line emitted by the catch block of `seedBackend`. -/
def errorLogEvent (e : String) : Event :=
  Event.log (LogEvent.error "Error during setup" [("error", e)])

/-- The state reached inside the try block right before the seeder runs
(steps 1-6 completed with table count `n`). -/
def preSeedState (env : Env) (ae ap : String) (n : Nat) (s : SeedState) : SeedState :=
  { ensureFirstAdmin (some ae) (some ap) (logInfo "\n🚀 Insforge Backend Starting..." [] s) with
    trace :=
      (ensureFirstAdmin (some ae) (some ap)
        (logInfo "\n🚀 Insforge Backend Starting..." [] s)).trace ++
      [Event.callInitApiKey, Event.callGetUserTableCount, dbConnectedEvent env] ++
      (if n > 0 then [foundTablesEvent n] else []) }


/-- A behavior where every external call succeeds. -/
def okBehavior : Behavior :=
  ⟨none, none, Except.ok "test-api-key", Except.ok 3, none, fun _ => none⟩

/-- A behavior where the second create call (the image record) throws. -/
def imageFailBehavior : Behavior :=
  ⟨none, none, Except.ok "test-api-key", Except.ok 0, none,
    fun k => if k = 1 then some "image create failed" else none⟩

/-- A behavior where `AuthService.getInstance()` throws. -/
def authFailBehavior : Behavior :=
  ⟨some "auth getInstance failed", none, Except.ok "test-api-key", Except.ok 0, none,
    fun _ => none⟩

/-- A behavior where `DatabaseManager.getInstance()` throws. -/
def dbFailBehavior : Behavior :=
  ⟨none, some "db getInstance failed", Except.ok "test-api-key", Except.ok 0, none,
    fun _ => none⟩

/-- A cloud environment with no environment variables set. -/
def cloudEnvNoVars : Env := ⟨none, none, none, none, none, true⟩

/-- A non-cloud environment with no environment variables set. -/
def localEnvNoVars : Env := ⟨none, none, none, none, none, false⟩

/-- The empty start state: empty store, empty trace. -/
def emptyState : SeedState := ⟨[], []⟩

/-- A start state whose store already holds one record. -/
def oneConfigState : SeedState := ⟨[⟨"text", "p", "m", none⟩], []⟩

/-! ## Helper lemmas -/

theorem createCallCount_append (t u : List Event) :
    createCallCount (t ++ u) = createCallCount t + createCallCount u := by
  simp [createCallCount, List.filter_append]

theorem doCreate_trace (b : Behavior) (m p md : String) (sp : Option String) (s : SeedState) :
    (doCreate b m p md sp s).1.trace = s.trace ++ [Event.callCreate m p md sp] := by
  unfold doCreate
  cases h : b.createThrows (createCallCount s.trace) <;> simp [h]

theorem createCallCount_nil : createCallCount [] = 0 := rfl

theorem createCallCount_cons (e : Event) (t : List Event) :
    createCallCount (e :: t) =
      (if isCreateEvent e then 1 else 0) + createCallCount t := by
  cases e <;> simp [createCallCount, isCreateEvent, List.filter_cons, Nat.add_comm]

theorem createCallCount_log (e : LogEvent) : createCallCount [Event.log e] = 0 := rfl

theorem createCallCount_findAll : createCallCount [Event.callFindAll] = 0 := rfl

theorem createCallCount_create (m p md : String) (sp : Option String) :
    createCallCount [Event.callCreate m p md sp] = 1 := rfl

/-- Seeder evaluation: `findAll` throws. -/
theorem seedDefault_findAll_throws (b : Behavior) (s : SeedState) (e : String)
    (hf : b.findAllThrows = some e) :
    seedDefaultAIConfigs true b s =
      ({ s with trace := s.trace ++ [Event.callFindAll] }, some e) := by
  simp [seedDefaultAIConfigs, hf]

/-- Seeder evaluation: the store already has records, so it returns after the
`findAll` call with no create call and no log line. -/
theorem seedDefault_skip (b : Behavior) (s : SeedState)
    (hf : b.findAllThrows = none) (hs : s.store.length > 0) :
    seedDefaultAIConfigs true b s =
      ({ s with trace := s.trace ++ [Event.callFindAll] }, none) := by
  simp [seedDefaultAIConfigs, hf, hs]

/-- Seeder evaluation: empty store, first create throws. -/
theorem seedDefault_create1_throws (b : Behavior) (s : SeedState) (e : String)
    (hf : b.findAllThrows = none) (hs : s.store = [])
    (hc1 : b.createThrows (createCallCount s.trace) = some e) :
    seedDefaultAIConfigs true b s =
      ({ store := [],
         trace := s.trace ++ [Event.callFindAll,
           Event.callCreate "text" "openrouter" "anthropic/claude-3.5-haiku"
             (some "You are a helpful assistant.")] }, some e) := by
  simp [seedDefaultAIConfigs, doCreate, hf, hs, createCallCount_append, createCallCount_cons,
    createCallCount_nil, isCreateEvent, hc1]

/-- Seeder evaluation: empty store, first create succeeds, second throws. -/
theorem seedDefault_create2_throws (b : Behavior) (s : SeedState) (e : String)
    (hf : b.findAllThrows = none) (hs : s.store = [])
    (hc1 : b.createThrows (createCallCount s.trace) = none)
    (hc2 : b.createThrows (createCallCount s.trace + 1) = some e) :
    seedDefaultAIConfigs true b s =
      ({ store := [textConfig],
         trace := s.trace ++ [Event.callFindAll,
           Event.callCreate "text" "openrouter" "anthropic/claude-3.5-haiku"
             (some "You are a helpful assistant."),
           Event.callCreate "image" "openrouter" "google/gemini-2.5-flash-image-preview"
             none] }, some e) := by
  simp [seedDefaultAIConfigs, doCreate, hf, hs, createCallCount_append, createCallCount_cons,
    createCallCount_nil, isCreateEvent, hc1, hc2, textConfig]

/-- Seeder evaluation: empty store, both creates succeed. -/
theorem seedDefault_seeds (b : Behavior) (s : SeedState)
    (hf : b.findAllThrows = none) (hs : s.store = [])
    (hc1 : b.createThrows (createCallCount s.trace) = none)
    (hc2 : b.createThrows (createCallCount s.trace + 1) = none) :
    seedDefaultAIConfigs true b s =
      ({ store := [textConfig, imageConfig],
         trace := s.trace ++ [Event.callFindAll,
           Event.callCreate "text" "openrouter" "anthropic/claude-3.5-haiku"
             (some "You are a helpful assistant."),
           Event.callCreate "image" "openrouter" "google/gemini-2.5-flash-image-preview"
             none,
           Event.log (LogEvent.info
             "✅ Default AI models configured (cloud environment)" [])] }, none) := by
  simp [seedDefaultAIConfigs, doCreate, hf, hs, createCallCount_append, createCallCount_cons,
    createCallCount_nil, isCreateEvent, hc1, hc2, textConfig, imageConfig]

theorem storeLength_zero_of_not_pos (s : SeedState) (hs : ¬s.store.length > 0) :
    s.store = [] :=
  List.length_eq_zero.mp (Nat.le_zero.mp (Nat.not_lt.mp hs))

/-- The seeder only appends events to the trace, and never an error log. -/
theorem seedDefault_ext (c : Bool) (b : Behavior) (s : SeedState) :
    ∃ t, (seedDefaultAIConfigs c b s).1.trace = s.trace ++ t ∧
      t.filter isErrorEvent = [] := by
  cases c with
  | false => exact ⟨[], by simp [seedDefaultAIConfigs], rfl⟩
  | true =>
    cases hf : b.findAllThrows with
    | some e =>
      exact ⟨[Event.callFindAll], by simp [seedDefault_findAll_throws b s e hf], rfl⟩
    | none =>
      by_cases hs : s.store.length > 0
      · exact ⟨[Event.callFindAll], by simp [seedDefault_skip b s hf hs], rfl⟩
      · have hs0 := storeLength_zero_of_not_pos s hs
        cases hc1 : b.createThrows (createCallCount s.trace) with
        | some e =>
          exact ⟨[Event.callFindAll,
            Event.callCreate "text" "openrouter" "anthropic/claude-3.5-haiku"
              (some "You are a helpful assistant.")],
            by simp [seedDefault_create1_throws b s e hf hs0 hc1], rfl⟩
        | none =>
          cases hc2 : b.createThrows (createCallCount s.trace + 1) with
          | some e =>
            exact ⟨[Event.callFindAll,
              Event.callCreate "text" "openrouter" "anthropic/claude-3.5-haiku"
                (some "You are a helpful assistant."),
              Event.callCreate "image" "openrouter" "google/gemini-2.5-flash-image-preview"
                none],
              by simp [seedDefault_create2_throws b s e hf hs0 hc1 hc2], rfl⟩
          | none =>
            exact ⟨[Event.callFindAll,
              Event.callCreate "text" "openrouter" "anthropic/claude-3.5-haiku"
                (some "You are a helpful assistant."),
              Event.callCreate "image" "openrouter" "google/gemini-2.5-flash-image-preview"
                none,
              Event.log (LogEvent.info
                "✅ Default AI models configured (cloud environment)" [])],
              by simp [seedDefault_seeds b s hf hs0 hc1 hc2], rfl⟩

/-- When `findAll` and the creates succeed, the seeder never throws. -/
theorem seedDefault_noThrow (c : Bool) (b : Behavior) (s : SeedState)
    (hf : b.findAllThrows = none) (hc : ∀ k, b.createThrows k = none) :
    (seedDefaultAIConfigs c b s).2 = none := by
  cases c with
  | false => simp [seedDefaultAIConfigs]
  | true =>
    by_cases hs : s.store.length > 0
    · rw [seedDefault_skip b s hf hs]
    · rw [seedDefault_seeds b s hf (storeLength_zero_of_not_pos s hs) (hc _) (hc _)]

/-- The admin check appends exactly one log line, never an error log. -/
theorem ensureFirstAdmin_ext (a p : Option String) (s : SeedState) :
    ∃ ev, ensureFirstAdmin a p s = { s with trace := s.trace ++ [Event.log ev] } ∧
      isErrorEvent (Event.log ev) = false := by
  unfold ensureFirstAdmin
  split
  · exact ⟨_, rfl, rfl⟩
  · exact ⟨_, rfl, rfl⟩

/-- Try-block evaluation: `initializeApiKey` throws. -/
theorem tryBody_initKey_throws (env : Env) (b : Behavior) (ae ap : String) (s : SeedState)
    (e : String) (hk : b.initializeApiKey = Except.error e) :
    tryBody env b ae ap s =
      ({ ensureFirstAdmin (some ae) (some ap)
           (logInfo "\n🚀 Insforge Backend Starting..." [] s) with
         trace := (ensureFirstAdmin (some ae) (some ap)
           (logInfo "\n🚀 Insforge Backend Starting..." [] s)).trace ++
           [Event.callInitApiKey] }, some e) := by
  simp [tryBody, hk]

/-- Try-block evaluation: `getUserTableCount` throws. -/
theorem tryBody_count_throws (env : Env) (b : Behavior) (ae ap : String) (s : SeedState)
    (k e : String) (hk : b.initializeApiKey = Except.ok k)
    (hn : b.getUserTableCount = Except.error e) :
    tryBody env b ae ap s =
      ({ ensureFirstAdmin (some ae) (some ap)
           (logInfo "\n🚀 Insforge Backend Starting..." [] s) with
         trace := (ensureFirstAdmin (some ae) (some ap)
           (logInfo "\n🚀 Insforge Backend Starting..." [] s)).trace ++
           [Event.callInitApiKey, Event.callGetUserTableCount] }, some e) := by
  simp [tryBody, hk, hn]

/-- Try-block evaluation when both external reads succeed: the body reaches
the seeder in state `preSeedState` and then logs the API key and summary. -/
theorem tryBody_ok (env : Env) (b : Behavior) (ae ap : String) (s : SeedState)
    (k : String) (n : Nat) (hk : b.initializeApiKey = Except.ok k)
    (hn : b.getUserTableCount = Except.ok n) :
    tryBody env b ae ap s =
      match seedDefaultAIConfigs env.isCloud b (preSeedState env ae ap n s) with
      | (s7, some e) => (s7, some e)
      | (s7, none) =>
        (logInfo setupCompleteMessage [] (logInfo ("API key generated: " ++ k) [] s7),
          none) := by
  by_cases hn0 : n > 0 <;>
    simp [tryBody, hk, hn, preSeedState, logInfo, dbConnectedEvent, foundTablesEvent, hn0,
      List.append_assoc]

/-- The try-block body only appends events after the starting log and the
admin-check log, and never appends an error log. -/
theorem tryBody_ext (env : Env) (b : Behavior) (ae ap : String) (s : SeedState) :
    ∃ t, (tryBody env b ae ap s).1.trace =
      (ensureFirstAdmin (some ae) (some ap)
        (logInfo "\n🚀 Insforge Backend Starting..." [] s)).trace ++ t ∧
      t.filter isErrorEvent = [] := by
  cases hk : b.initializeApiKey with
  | error e =>
    exact ⟨[Event.callInitApiKey],
      by simp [tryBody_initKey_throws env b ae ap s e hk], rfl⟩
  | ok k =>
    cases hn : b.getUserTableCount with
    | error e =>
      exact ⟨[Event.callInitApiKey, Event.callGetUserTableCount],
        by simp [tryBody_count_throws env b ae ap s k e hk hn], rfl⟩
    | ok n =>
      obtain ⟨t', ht', hft'⟩ := seedDefault_ext env.isCloud b (preSeedState env ae ap n s)
      obtain ⟨s7, r7, hr⟩ :
          ∃ s7 r7, seedDefaultAIConfigs env.isCloud b (preSeedState env ae ap n s) = (s7, r7) :=
        ⟨_, _, rfl⟩
      have htre := tryBody_ok env b ae ap s k n hk hn
      rw [hr] at htre ht'
      cases r7 with
      | some e =>
        have ht2 : s7.trace = (preSeedState env ae ap n s).trace ++ t' := ht'
        refine ⟨[Event.callInitApiKey, Event.callGetUserTableCount, dbConnectedEvent env] ++
          (if n > 0 then [foundTablesEvent n] else []) ++ t', ?_, ?_⟩
        · rw [htre]
          simp [ht2, preSeedState, List.append_assoc]
        · by_cases hn0 : n > 0 <;>
            simp [List.filter_append, hft', isErrorEvent, dbConnectedEvent, foundTablesEvent,
              hn0]
      | none =>
        have ht2 : s7.trace = (preSeedState env ae ap n s).trace ++ t' := ht'
        refine ⟨[Event.callInitApiKey, Event.callGetUserTableCount, dbConnectedEvent env] ++
          (if n > 0 then [foundTablesEvent n] else []) ++ t' ++
          [apiKeyLogEvent k, setupCompleteEvent], ?_, ?_⟩
        · rw [htre]
          simp [logInfo, ht2, preSeedState, apiKeyLogEvent, setupCompleteEvent,
            List.append_assoc]
        · by_cases hn0 : n > 0 <;>
            simp [List.filter_append, hft', isErrorEvent, dbConnectedEvent, foundTablesEvent,
              apiKeyLogEvent, setupCompleteEvent, hn0]

theorem isErrorEvent_info (m : String) (meta : List (String × String)) :
    isErrorEvent (Event.log (LogEvent.info m meta)) = false := rfl

/-- The try-block body never changes the error log lines of the trace. -/
theorem errorFilter_tryBody (env : Env) (b : Behavior) (ae ap : String) (s : SeedState) :
    (tryBody env b ae ap s).1.trace.filter isErrorEvent = s.trace.filter isErrorEvent := by
  obtain ⟨t, ht, hft⟩ := tryBody_ext env b ae ap s
  obtain ⟨ev, hev, hfev⟩ := ensureFirstAdmin_ext (some ae) (some ap)
    (logInfo "\n🚀 Insforge Backend Starting..." [] s)
  rw [ht, hev]
  simp only [logInfo, List.filter_append, List.filter_singleton, hfev, isErrorEvent_info,
    if_false, hft, List.append_nil]
  simp

/-- Unfolding of `seedBackend` when neither `getInstance` call throws. -/
theorem seedBackend_eq (env : Env) (b : Behavior) (s : SeedState)
    (hA : b.getInstanceAuthThrows = none) (hD : b.getInstanceDbThrows = none) :
    seedBackend env b s =
      match tryBody env b (orDefault env.ADMIN_EMAIL "admin@example.com")
          (orDefault env.ADMIN_PASSWORD "change-this-password") s with
      | (s1, none) => (s1, none)
      | (s1, some e) => ({ s1 with trace := s1.trace ++ [errorLogEvent e] }, none) := by
  simp [seedBackend, hA, hD, errorLogEvent]

/-- An environment-variable lookup with a non-empty fallback is always a
truthy (non-empty) string. -/
theorem jsTruthy_orDefault (o : Option String) (d : String) (hd : d.isEmpty = false) :
    jsTruthy (some (orDefault o d)) = true := by
  cases o with
  | none => simp [orDefault, jsTruthy, hd]
  | some v => by_cases hv : v.isEmpty <;> simp [orDefault, jsTruthy, hv, hd]

/-! ## Claim theorems -/

/-- C2: the AI Config Seeder is idempotent. In cloud mode, starting from an
empty store (with a non-throwing store), the first invocation leaves exactly
the two default records in the store, and a second invocation in sequence
changes nothing: the store is unchanged and zero additional create calls are
issued. -/
theorem seedDefaultAIConfigs_idempotent (b : Behavior) (s : SeedState)
    (hf : b.findAllThrows = none) (hc : ∀ k, b.createThrows k = none)
    (hs : s.store = []) :
    (seedDefaultAIConfigs true b s).1.store = [textConfig, imageConfig] ∧
    (seedDefaultAIConfigs true b (seedDefaultAIConfigs true b s).1).1.store =
      (seedDefaultAIConfigs true b s).1.store ∧
    createCallCount
        (seedDefaultAIConfigs true b (seedDefaultAIConfigs true b s).1).1.trace =
      createCallCount (seedDefaultAIConfigs true b s).1.trace := by
  have h1 := seedDefault_seeds b s hf hs (hc _) (hc _)
  have hs1 : (seedDefaultAIConfigs true b s).1.store = [textConfig, imageConfig] := by
    rw [h1]
  have h2 := seedDefault_skip b (seedDefaultAIConfigs true b s).1 hf
    (by rw [hs1]; simp)
  refine ⟨hs1, ?_, ?_⟩
  · rw [h2]
  · rw [h2]
    simp [createCallCount_append, createCallCount_findAll]

/-- C3: in cloud mode with an empty store (and a non-throwing store), the
seeder creates exactly two records with exactly these field values, in the
order text then image; the create calls appear in the trace in that order. -/
theorem seedDefaultAIConfigs_fixed_content (b : Behavior) (s : SeedState)
    (hf : b.findAllThrows = none) (hc : ∀ k, b.createThrows k = none)
    (hs : s.store = []) :
    (seedDefaultAIConfigs true b s).1.store =
      [⟨"text", "openrouter", "anthropic/claude-3.5-haiku",
         some "You are a helpful assistant."⟩,
       ⟨"image", "openrouter", "google/gemini-2.5-flash-image-preview", none⟩] ∧
    ∃ t, (seedDefaultAIConfigs true b s).1.trace = s.trace ++ t ∧
      t.filter isCreateEvent =
        [Event.callCreate "text" "openrouter" "anthropic/claude-3.5-haiku"
           (some "You are a helpful assistant."),
         Event.callCreate "image" "openrouter" "google/gemini-2.5-flash-image-preview"
           none] := by
  have h1 := seedDefault_seeds b s hf hs (hc _) (hc _)
  rw [h1]
  refine ⟨by simp [textConfig, imageConfig], ?_⟩
  exact ⟨[Event.callFindAll,
    Event.callCreate "text" "openrouter" "anthropic/claude-3.5-haiku"
      (some "You are a helpful assistant."),
    Event.callCreate "image" "openrouter" "google/gemini-2.5-flash-image-preview" none,
    Event.log (LogEvent.info "✅ Default AI models configured (cloud environment)" [])],
    rfl, rfl⟩

/-- C4: in a non-cloud environment the seeder is a no-op: the state
(store and trace, hence store calls and log lines) is untouched and nothing
is thrown. -/
theorem seedDefaultAIConfigs_noncloud_noop (b : Behavior) (s : SeedState) :
    seedDefaultAIConfigs false b s = (s, none) := by
  simp [seedDefaultAIConfigs]

/-- C5: in cloud mode, when the store already holds at least one record (and
`findAll` does not throw), the seeder returns right after the `findAll` call:
no create call is issued and no log line (in particular no confirmation
message) is emitted. -/
theorem seedDefaultAIConfigs_existing_skip (b : Behavior) (s : SeedState)
    (hf : b.findAllThrows = none) (hs : s.store ≠ []) :
    seedDefaultAIConfigs true b s =
      ({ s with trace := s.trace ++ [Event.callFindAll] }, none) ∧
    (seedDefaultAIConfigs true b s).1.trace.filter isCreateEvent =
      s.trace.filter isCreateEvent ∧
    (seedDefaultAIConfigs true b s).1.trace.filter isLogEvent =
      s.trace.filter isLogEvent := by
  have hlen : s.store.length > 0 := List.length_pos.mpr hs
  have h := seedDefault_skip b s hf hlen
  refine ⟨h, ?_, ?_⟩ <;> rw [h] <;>
    simp [List.filter_append, isCreateEvent, isLogEvent]

/-- C7: the Admin Credential Check logs an informational message naming the
email exactly when both credentials are truthy (present and non-empty), and a
warning exactly when either is missing or empty; either way it only appends
that one log line and returns normally (it cannot throw: the model returns a
state with no error component). -/
theorem ensureFirstAdmin_spec (a p : Option String) (s : SeedState) :
    (jsTruthy a = true → jsTruthy p = true →
      ensureFirstAdmin a p s =
        { s with trace := s.trace ++
            [Event.log (LogEvent.info ("✅ Admin configured: " ++ optToJsString a) [])] }) ∧
    (jsTruthy a = false ∨ jsTruthy p = false →
      ensureFirstAdmin a p s =
        { s with trace := s.trace ++
            [Event.log (LogEvent.warn
              "⚠️ Admin credentials not configured - check ADMIN_EMAIL and ADMIN_PASSWORD")] }) := by
  constructor
  · intro ha hp
    simp [ensureFirstAdmin, ha, hp]
  · intro h
    rcases h with h | h <;> simp [ensureFirstAdmin, h]

/-- C10: the two singleton acquisitions run before the try block, so when
either `AuthService.getInstance()` or `DatabaseManager.getInstance()` throws,
the exception propagates out of `seedBackend` uncaught and unlogged. -/
theorem seedBackend_getInstance_propagates (env : Env) (b bd : Behavior) (s : SeedState)
    (e ed : String) :
    (b.getInstanceAuthThrows = some e → seedBackend env b s = (s, some e)) ∧
    (bd.getInstanceAuthThrows = none → bd.getInstanceDbThrows = some ed →
      seedBackend env bd s = (s, some ed)) := by
  constructor
  · intro h
    simp [seedBackend, h]
  · intro h1 h2
    simp [seedBackend, h1, h2]

/-- C1: for every behavior of the external services called inside the try
block (API-key initialization, table-count query, AI-config find/create) and
every environment, `seedBackend` returns normally (nothing is thrown to the
caller), and the error log lines of the final trace are exactly the prior
ones plus one single "Error during setup" line when the try body threw, and
nothing otherwise: the exception is caught exactly once, logged, and
suppressed. -/
theorem seedBackend_never_throws (env : Env) (b : Behavior) (s : SeedState)
    (hA : b.getInstanceAuthThrows = none) (hD : b.getInstanceDbThrows = none) :
    (seedBackend env b s).2 = none ∧
    (seedBackend env b s).1.trace.filter isErrorEvent =
      s.trace.filter isErrorEvent ++
      (match (tryBody env b (orDefault env.ADMIN_EMAIL "admin@example.com")
          (orDefault env.ADMIN_PASSWORD "change-this-password") s).2 with
       | some e => [errorLogEvent e]
       | none => []) := by
  rw [seedBackend_eq env b s hA hD]
  obtain ⟨s1, r1, hr⟩ :
      ∃ s1 r1, tryBody env b (orDefault env.ADMIN_EMAIL "admin@example.com")
        (orDefault env.ADMIN_PASSWORD "change-this-password") s = (s1, r1) :=
    ⟨_, _, rfl⟩
  have hef := errorFilter_tryBody env b (orDefault env.ADMIN_EMAIL "admin@example.com")
    (orDefault env.ADMIN_PASSWORD "change-this-password") s
  rw [hr] at hef
  have hef1 : s1.trace.filter isErrorEvent = s.trace.filter isErrorEvent := hef
  rw [hr]
  cases r1 with
  | none => simpa using hef1
  | some e =>
    refine ⟨rfl, ?_⟩
    simp [List.filter_append, hef1, errorLogEvent, isErrorEvent]

/-- C8: with `ADMIN_EMAIL` and `ADMIN_PASSWORD` unset the routine substitutes
the fixed placeholders, completes without throwing for every behavior of the
external services, and the admin check takes the configured branch, logging
the placeholder email `admin@example.com` (the placeholder password is
substituted too, making the check pass, but is never written to the log). -/
theorem seedBackend_default_credentials (env : Env) (b : Behavior) (s : SeedState)
    (hE : env.ADMIN_EMAIL = none) (hP : env.ADMIN_PASSWORD = none)
    (hA : b.getInstanceAuthThrows = none) (hD : b.getInstanceDbThrows = none) :
    (seedBackend env b s).2 = none ∧
    Event.log (LogEvent.info "✅ Admin configured: admin@example.com" []) ∈
      (seedBackend env b s).1.trace := by
  rw [seedBackend_eq env b s hA hD]
  obtain ⟨t, ht, hft⟩ := tryBody_ext env b (orDefault env.ADMIN_EMAIL "admin@example.com")
    (orDefault env.ADMIN_PASSWORD "change-this-password") s
  have hadm : ensureFirstAdmin (some (orDefault env.ADMIN_EMAIL "admin@example.com"))
      (some (orDefault env.ADMIN_PASSWORD "change-this-password"))
      (logInfo "\n🚀 Insforge Backend Starting..." [] s) =
      { logInfo "\n🚀 Insforge Backend Starting..." [] s with
        trace := (logInfo "\n🚀 Insforge Backend Starting..." [] s).trace ++
          [Event.log (LogEvent.info "✅ Admin configured: admin@example.com" [])] } := by
    rw [hE, hP]
    simp [ensureFirstAdmin, jsTruthy, optToJsString, orDefault]
    decide
  rw [hadm] at ht
  obtain ⟨s1, r1, hr⟩ :
      ∃ s1 r1, tryBody env b (orDefault env.ADMIN_EMAIL "admin@example.com")
        (orDefault env.ADMIN_PASSWORD "change-this-password") s = (s1, r1) :=
    ⟨_, _, rfl⟩
  rw [hr] at ht
  have ht1 : s1.trace =
      (logInfo "\n🚀 Insforge Backend Starting..." [] s).trace ++
        [Event.log (LogEvent.info "✅ Admin configured: admin@example.com" [])] ++ t := ht
  rw [hr]
  cases r1 with
  | none =>
    refine ⟨rfl, ?_⟩
    rw [ht1]
    simp [logInfo]
  | some e =>
    refine ⟨rfl, ?_⟩
    simp only [ht1, logInfo]
    simp

/-- C9: in a run where the awaited external calls resolve (keys `k`, count
`n`, non-throwing store), the final trace decomposes as: the starting log,
the admin-check log, the API-key-initialization call, the table-count call,
the connectivity log, the optional table-count log, then every event of the
AI-config seeder run from exactly that intermediate state, then the API-key
log and the setup-complete log. Each step therefore begins only after the
previous one resolved, and the API key is logged only after the seeder has
completed. -/
theorem seedBackend_step_order (env : Env) (b : Behavior) (s : SeedState)
    (k : String) (n : Nat)
    (hA : b.getInstanceAuthThrows = none) (hD : b.getInstanceDbThrows = none)
    (hk : b.initializeApiKey = Except.ok k) (hn : b.getUserTableCount = Except.ok n)
    (hf : b.findAllThrows = none) (hc : ∀ j, b.createThrows j = none) :
    (seedBackend env b s).1.trace =
      (seedDefaultAIConfigs env.isCloud b
        { store := s.store,
          trace := s.trace ++
            [startingLogEvent,
             Event.log (LogEvent.info ("✅ Admin configured: " ++
               orDefault env.ADMIN_EMAIL "admin@example.com") []),
             Event.callInitApiKey, Event.callGetUserTableCount, dbConnectedEvent env] ++
            (if n > 0 then [foundTablesEvent n] else []) }).1.trace ++
      [apiKeyLogEvent k, setupCompleteEvent] := by
  have hta := jsTruthy_orDefault env.ADMIN_EMAIL "admin@example.com" (by decide)
  have htp := jsTruthy_orDefault env.ADMIN_PASSWORD "change-this-password" (by decide)
  have hpre : preSeedState env (orDefault env.ADMIN_EMAIL "admin@example.com")
      (orDefault env.ADMIN_PASSWORD "change-this-password") n s =
      { store := s.store,
        trace := s.trace ++
          [startingLogEvent,
           Event.log (LogEvent.info ("✅ Admin configured: " ++
             orDefault env.ADMIN_EMAIL "admin@example.com") []),
           Event.callInitApiKey, Event.callGetUserTableCount, dbConnectedEvent env] ++
          (if n > 0 then [foundTablesEvent n] else []) } := by
    simp [preSeedState, ensureFirstAdmin, hta, htp, logInfo, startingLogEvent,
      optToJsString, List.append_assoc]
  rw [seedBackend_eq env b s hA hD,
    tryBody_ok env b (orDefault env.ADMIN_EMAIL "admin@example.com")
      (orDefault env.ADMIN_PASSWORD "change-this-password") s k n hk hn]
  obtain ⟨s7, r7, hr⟩ :
      ∃ s7 r7, seedDefaultAIConfigs env.isCloud b
        (preSeedState env (orDefault env.ADMIN_EMAIL "admin@example.com")
          (orDefault env.ADMIN_PASSWORD "change-this-password") n s) = (s7, r7) :=
    ⟨_, _, rfl⟩
  have hnt := seedDefault_noThrow env.isCloud b
    (preSeedState env (orDefault env.ADMIN_EMAIL "admin@example.com")
      (orDefault env.ADMIN_PASSWORD "change-this-password") n s) hf hc
  rw [hr] at hnt
  have hr7 : r7 = none := hnt
  subst hr7
  rw [← hpre, hr]
  simp [logInfo, apiKeyLogEvent, setupCompleteEvent, List.append_assoc]

theorem isErrorEvent_callInit : isErrorEvent Event.callInitApiKey = false := rfl

theorem isErrorEvent_callCount : isErrorEvent Event.callGetUserTableCount = false := rfl

theorem isErrorEvent_findAll : isErrorEvent Event.callFindAll = false := rfl

theorem isErrorEvent_create (m p md : String) (sp : Option String) :
    isErrorEvent (Event.callCreate m p md sp) = false := rfl

theorem isErrorEvent_error (m : String) (meta : List (String × String)) :
    isErrorEvent (Event.log (LogEvent.error m meta)) = true := rfl

/-- C6: in cloud mode with an empty store, when the first create (text)
succeeds and the second create (image) throws, the orchestrator still
completes normally: nothing is thrown to the caller, exactly one error log
line is emitted, and the first record remains persisted in the store with no
rollback. -/
theorem seedBackend_partial_seed_on_image_failure (env : Env) (b : Behavior) (s : SeedState)
    (k e : String) (n : Nat)
    (henv : env.isCloud = true) (hst : s.store = []) (htr : s.trace = [])
    (hA : b.getInstanceAuthThrows = none) (hD : b.getInstanceDbThrows = none)
    (hk : b.initializeApiKey = Except.ok k) (hn : b.getUserTableCount = Except.ok n)
    (hf : b.findAllThrows = none)
    (hc0 : b.createThrows 0 = none) (hc1 : b.createThrows 1 = some e) :
    (seedBackend env b s).2 = none ∧
    (seedBackend env b s).1.store = [textConfig] ∧
    (seedBackend env b s).1.trace.filter isErrorEvent = [errorLogEvent e] := by
  obtain ⟨ev, hev, hfev⟩ := ensureFirstAdmin_ext
    (some (orDefault env.ADMIN_EMAIL "admin@example.com"))
    (some (orDefault env.ADMIN_PASSWORD "change-this-password"))
    (logInfo "\n🚀 Insforge Backend Starting..." [] s)
  have hpre_store : (preSeedState env (orDefault env.ADMIN_EMAIL "admin@example.com")
      (orDefault env.ADMIN_PASSWORD "change-this-password") n s).store = [] := by
    simp only [preSeedState, hev]
    simp [logInfo, hst]
  have hcc : createCallCount (preSeedState env (orDefault env.ADMIN_EMAIL "admin@example.com")
      (orDefault env.ADMIN_PASSWORD "change-this-password") n s).trace = 0 := by
    simp only [preSeedState, hev]
    by_cases hn0 : n > 0 <;>
      simp [logInfo, htr, hn0, createCallCount_append,
        createCallCount_cons, createCallCount_nil, isCreateEvent, dbConnectedEvent,
        foundTablesEvent]
  have hseed := seedDefault_create2_throws b
    (preSeedState env (orDefault env.ADMIN_EMAIL "admin@example.com")
      (orDefault env.ADMIN_PASSWORD "change-this-password") n s) e hf hpre_store
    (by rw [hcc]; exact hc0) (by rw [hcc]; exact hc1)
  have htb := tryBody_ok env b (orDefault env.ADMIN_EMAIL "admin@example.com")
    (orDefault env.ADMIN_PASSWORD "change-this-password") s k n hk hn
  rw [henv] at htb
  rw [hseed] at htb
  rw [seedBackend_eq env b s hA hD, htb]
  refine ⟨rfl, rfl, ?_⟩
  simp only [preSeedState, hev]
  by_cases hn0 : n > 0 <;>
    simp [logInfo, htr, hn0, List.filter_append, List.filter_cons,
      hfev, isErrorEvent_info, isErrorEvent_callInit, isErrorEvent_callCount,
      isErrorEvent_findAll, isErrorEvent_create, isErrorEvent_error, errorLogEvent,
      dbConnectedEvent, foundTablesEvent]

/-! ## Witnesses -/

/-- Witness for C1 at a concrete input. -/
theorem seedBackend_never_throws_witness :
    okBehavior.getInstanceAuthThrows = none ∧ okBehavior.getInstanceDbThrows = none ∧
    ((seedBackend cloudEnvNoVars okBehavior emptyState).2 = none ∧
     (seedBackend cloudEnvNoVars okBehavior emptyState).1.trace.filter isErrorEvent =
       emptyState.trace.filter isErrorEvent ++
       (match (tryBody cloudEnvNoVars okBehavior
           (orDefault cloudEnvNoVars.ADMIN_EMAIL "admin@example.com")
           (orDefault cloudEnvNoVars.ADMIN_PASSWORD "change-this-password")
           emptyState).2 with
        | some e => [errorLogEvent e]
        | none => [])) :=
  ⟨rfl, rfl, seedBackend_never_throws cloudEnvNoVars okBehavior emptyState rfl rfl⟩

/-- Witness for C2 at a concrete input. -/
theorem seedDefaultAIConfigs_idempotent_witness :
    okBehavior.findAllThrows = none ∧ (∀ k, okBehavior.createThrows k = none) ∧
    emptyState.store = [] ∧
    ((seedDefaultAIConfigs true okBehavior emptyState).1.store = [textConfig, imageConfig] ∧
     (seedDefaultAIConfigs true okBehavior
         (seedDefaultAIConfigs true okBehavior emptyState).1).1.store =
       (seedDefaultAIConfigs true okBehavior emptyState).1.store ∧
     createCallCount (seedDefaultAIConfigs true okBehavior
         (seedDefaultAIConfigs true okBehavior emptyState).1).1.trace =
       createCallCount (seedDefaultAIConfigs true okBehavior emptyState).1.trace) :=
  ⟨rfl, fun _ => rfl, rfl,
    seedDefaultAIConfigs_idempotent okBehavior emptyState rfl (fun _ => rfl) rfl⟩

/-- Witness for C3 at a concrete input. -/
theorem seedDefaultAIConfigs_fixed_content_witness :
    okBehavior.findAllThrows = none ∧ (∀ k, okBehavior.createThrows k = none) ∧
    emptyState.store = [] ∧
    ((seedDefaultAIConfigs true okBehavior emptyState).1.store =
      [⟨"text", "openrouter", "anthropic/claude-3.5-haiku",
         some "You are a helpful assistant."⟩,
       ⟨"image", "openrouter", "google/gemini-2.5-flash-image-preview", none⟩] ∧
     ∃ t, (seedDefaultAIConfigs true okBehavior emptyState).1.trace =
        emptyState.trace ++ t ∧
      t.filter isCreateEvent =
        [Event.callCreate "text" "openrouter" "anthropic/claude-3.5-haiku"
           (some "You are a helpful assistant."),
         Event.callCreate "image" "openrouter" "google/gemini-2.5-flash-image-preview"
           none]) :=
  ⟨rfl, fun _ => rfl, rfl,
    seedDefaultAIConfigs_fixed_content okBehavior emptyState rfl (fun _ => rfl) rfl⟩

/-- Witness for C5 at a concrete input. -/
theorem seedDefaultAIConfigs_existing_skip_witness :
    okBehavior.findAllThrows = none ∧ oneConfigState.store ≠ [] ∧
    (seedDefaultAIConfigs true okBehavior oneConfigState =
      ({ oneConfigState with trace := oneConfigState.trace ++ [Event.callFindAll] }, none) ∧
     (seedDefaultAIConfigs true okBehavior oneConfigState).1.trace.filter isCreateEvent =
       oneConfigState.trace.filter isCreateEvent ∧
     (seedDefaultAIConfigs true okBehavior oneConfigState).1.trace.filter isLogEvent =
       oneConfigState.trace.filter isLogEvent) :=
  ⟨rfl, by simp [oneConfigState],
    seedDefaultAIConfigs_existing_skip okBehavior oneConfigState rfl (by simp [oneConfigState])⟩

/-- Witness for C6 at a concrete input. -/
theorem seedBackend_partial_seed_on_image_failure_witness :
    cloudEnvNoVars.isCloud = true ∧ emptyState.store = [] ∧ emptyState.trace = [] ∧
    imageFailBehavior.getInstanceAuthThrows = none ∧
    imageFailBehavior.getInstanceDbThrows = none ∧
    imageFailBehavior.initializeApiKey = Except.ok "test-api-key" ∧
    imageFailBehavior.getUserTableCount = Except.ok 0 ∧
    imageFailBehavior.findAllThrows = none ∧
    imageFailBehavior.createThrows 0 = none ∧
    imageFailBehavior.createThrows 1 = some "image create failed" ∧
    ((seedBackend cloudEnvNoVars imageFailBehavior emptyState).2 = none ∧
     (seedBackend cloudEnvNoVars imageFailBehavior emptyState).1.store = [textConfig] ∧
     (seedBackend cloudEnvNoVars imageFailBehavior emptyState).1.trace.filter isErrorEvent =
       [errorLogEvent "image create failed"]) :=
  ⟨rfl, rfl, rfl, rfl, rfl, rfl, rfl, rfl, by decide, by decide,
    seedBackend_partial_seed_on_image_failure cloudEnvNoVars imageFailBehavior emptyState
      "test-api-key" "image create failed" 0 rfl rfl rfl rfl rfl rfl rfl rfl
      (by decide) (by decide)⟩

/-- Witness for C7 at concrete inputs: one truthy pair and one missing email. -/
theorem ensureFirstAdmin_spec_witness :
    (jsTruthy (some "admin@example.com") = true ∧
     jsTruthy (some "change-this-password") = true ∧
     ensureFirstAdmin (some "admin@example.com") (some "change-this-password") emptyState =
       { emptyState with trace := emptyState.trace ++
           [Event.log (LogEvent.info
             ("✅ Admin configured: " ++ optToJsString (some "admin@example.com")) [])] }) ∧
    ((jsTruthy (none : Option String) = false ∨ jsTruthy (some "pw") = false) ∧
     ensureFirstAdmin none (some "pw") emptyState =
       { emptyState with trace := emptyState.trace ++
           [Event.log (LogEvent.warn
             "⚠️ Admin credentials not configured - check ADMIN_EMAIL and ADMIN_PASSWORD")] }) :=
  ⟨⟨by decide, by decide,
    (ensureFirstAdmin_spec (some "admin@example.com") (some "change-this-password")
      emptyState).1 (by decide) (by decide)⟩,
   ⟨Or.inl rfl,
    (ensureFirstAdmin_spec none (some "pw") emptyState).2 (Or.inl rfl)⟩⟩

/-- Witness for C8 at a concrete input. -/
theorem seedBackend_default_credentials_witness :
    cloudEnvNoVars.ADMIN_EMAIL = none ∧ cloudEnvNoVars.ADMIN_PASSWORD = none ∧
    okBehavior.getInstanceAuthThrows = none ∧ okBehavior.getInstanceDbThrows = none ∧
    ((seedBackend cloudEnvNoVars okBehavior emptyState).2 = none ∧
     Event.log (LogEvent.info "✅ Admin configured: admin@example.com" []) ∈
       (seedBackend cloudEnvNoVars okBehavior emptyState).1.trace) :=
  ⟨rfl, rfl, rfl, rfl,
    seedBackend_default_credentials cloudEnvNoVars okBehavior emptyState rfl rfl rfl rfl⟩

/-- Witness for C9 at a concrete input. -/
theorem seedBackend_step_order_witness :
    okBehavior.getInstanceAuthThrows = none ∧ okBehavior.getInstanceDbThrows = none ∧
    okBehavior.initializeApiKey = Except.ok "test-api-key" ∧
    okBehavior.getUserTableCount = Except.ok 3 ∧
    okBehavior.findAllThrows = none ∧ (∀ j, okBehavior.createThrows j = none) ∧
    (seedBackend cloudEnvNoVars okBehavior emptyState).1.trace =
      (seedDefaultAIConfigs cloudEnvNoVars.isCloud okBehavior
        { store := emptyState.store,
          trace := emptyState.trace ++
            [startingLogEvent,
             Event.log (LogEvent.info ("✅ Admin configured: " ++
               orDefault cloudEnvNoVars.ADMIN_EMAIL "admin@example.com") []),
             Event.callInitApiKey, Event.callGetUserTableCount,
             dbConnectedEvent cloudEnvNoVars] ++
            (if 3 > 0 then [foundTablesEvent 3] else []) }).1.trace ++
      [apiKeyLogEvent "test-api-key", setupCompleteEvent] :=
  ⟨rfl, rfl, rfl, rfl, rfl, fun _ => rfl,
    seedBackend_step_order cloudEnvNoVars okBehavior emptyState "test-api-key" 3
      rfl rfl rfl rfl rfl (fun _ => rfl)⟩

/-- Witness for C10 at concrete inputs: one behavior where the auth singleton
throws and one where the database singleton throws. -/
theorem seedBackend_getInstance_propagates_witness :
    (authFailBehavior.getInstanceAuthThrows = some "auth getInstance failed" ∧
     seedBackend cloudEnvNoVars authFailBehavior emptyState =
       (emptyState, some "auth getInstance failed")) ∧
    (dbFailBehavior.getInstanceAuthThrows = none ∧
     dbFailBehavior.getInstanceDbThrows = some "db getInstance failed" ∧
     seedBackend cloudEnvNoVars dbFailBehavior emptyState =
       (emptyState, some "db getInstance failed")) :=
  ⟨⟨rfl,
    (seedBackend_getInstance_propagates cloudEnvNoVars authFailBehavior dbFailBehavior
      emptyState "auth getInstance failed" "db getInstance failed").1 rfl⟩,
   ⟨rfl, rfl,
    (seedBackend_getInstance_propagates cloudEnvNoVars authFailBehavior dbFailBehavior
      emptyState "auth getInstance failed" "db getInstance failed").2 rfl rfl⟩⟩
